import Mathlib

/-!
Verification of the projection engine in `sip_calculator.py` (Finance-Calculator).

The Python source is shallowly embedded over `ℚ`: Python floats carry exact
field arithmetic here (every operation in the engine is `+`, `-`, `*`, `/` and
integer powers, so the embedding is the same expression tree over exact
rationals), month loops become structural recursion on `ℕ`, pandas DataFrames
become `List` of rows, and each `calculate_*` function of the source is a
family of Lean definitions named after it.
-/

/-- Monthly growth rate used throughout the source: `annual_rate / 12 / 100`
(`calculate_sip` line 29, `calculate_swp` line 102, `calculate_combined_investment`
line 157). -/
def monthlyRate (annual : ℚ) : ℚ := annual / 12 / 100

/-! ## calculate_sip (lines 15-57) -/

/-- Loop state of `calculate_sip`: `current_amount`, `total_invested`,
`current_sip`. -/
structure SipState where
  amount : ℚ
  invested : ℚ
  sip : ℚ
deriving Repr

/-- Initial state of the `calculate_sip` loop (lines 33-35). -/
def sipInit (monthly initial : ℚ) : SipState :=
  ⟨initial, initial, monthly⟩

/-- One iteration of the `calculate_sip` month loop (lines 37-44): add the
monthly SIP, grow the balance, then step the SIP up after every 12th month
when `step_up > 0`. -/
def sipStep (mr su : ℚ) (month : ℕ) (s : SipState) : SipState :=
  let invested := s.invested + s.sip
  let amount := (s.amount + s.sip) * (1 + mr)
  let sip := if month % 12 = 0 ∧ 0 < su then s.sip * (1 + su / 100) else s.sip
  ⟨amount, invested, sip⟩

/-- State after the first `n` months of the `calculate_sip` loop. -/
def sipRun (mr su : ℚ) (init : SipState) : ℕ → SipState
  | 0 => init
  | n + 1 => sipStep mr su (n + 1) (sipRun mr su init n)

/-- Final amount returned by `calculate_sip` (first component of line 57). -/
def calculate_sip_final (monthly annual : ℚ) (years : ℕ) (su initial : ℚ) : ℚ :=
  (sipRun (monthlyRate annual) su (sipInit monthly initial) (years * 12)).amount

/-- Total invested returned by `calculate_sip` (second component of line 57). -/
def calculate_sip_invested (monthly annual : ℚ) (years : ℕ) (su initial : ℚ) : ℚ :=
  (sipRun (monthlyRate annual) su (sipInit monthly initial) (years * 12)).invested

/-- Year-wise rows of `calculate_sip` (lines 47-54), one row per year, recorded
at months 12, 24, ...: `(Year, Amount_Invested, Current_Value, Returns)`. -/
def calculate_sip_rows (monthly annual : ℚ) (years : ℕ) (su initial : ℚ) :
    List (ℕ × ℚ × ℚ × ℚ) :=
  (List.range years).map fun y =>
    let s := sipRun (monthlyRate annual) su (sipInit monthly initial) ((y + 1) * 12)
    (y + 1, s.invested, s.amount, s.amount - s.invested)

/-! ## calculate_lumpsum (lines 59-87) -/

/-- Final amount returned by `calculate_lumpsum` (line 85):
`(principal + initial) * (1 + rate/100) ^ years`. -/
def calculate_lumpsum_final (principal annual : ℚ) (years : ℕ) (initial : ℚ) : ℚ :=
  (principal + initial) * (1 + annual / 100) ^ years

/-- Year-wise rows of `calculate_lumpsum` (lines 76-83):
`(Year, Amount_Invested, Current_Value, Returns)`. -/
def calculate_lumpsum_rows (principal annual : ℚ) (years : ℕ) (initial : ℚ) :
    List (ℕ × ℚ × ℚ × ℚ) :=
  (List.range years).map fun y =>
    let v := (principal + initial) * (1 + annual / 100) ^ (y + 1)
    (y + 1, principal + initial, v, v - (principal + initial))

/-! ## calculate_swp (lines 89-129) -/

/-- Loop state of `calculate_swp`: `current_amount` and `total_withdrawn`. -/
structure SwpState where
  amount : ℚ
  withdrawn : ℚ
deriving Repr

/-- One iteration of the `calculate_swp` month loop (lines 109-116): grow the
balance, then withdraw only when the grown balance covers the withdrawal. -/
def swpStep (mr w : ℚ) (s : SwpState) : SwpState :=
  let a := s.amount * (1 + mr)
  if w ≤ a then ⟨a - w, s.withdrawn + w⟩ else ⟨a, s.withdrawn⟩

/-- State after the first `n` months of the `calculate_swp` loop. -/
def swpRun (mr w : ℚ) (init : SwpState) : ℕ → SwpState
  | 0 => init
  | n + 1 => swpStep mr w (swpRun mr w init n)

/-- Pair `(remaining_amount, total_withdrawn)` returned by `calculate_swp`
(line 129). -/
def calculate_swp_final (initial w annual : ℚ) (years : ℕ) : ℚ × ℚ :=
  let s := swpRun (monthlyRate annual) w ⟨initial, 0⟩ (years * 12)
  (s.amount, s.withdrawn)

/-- Year-wise rows of `calculate_swp` (lines 119-126):
`(Year, Remaining_Value, Total_Withdrawn)`. -/
def calculate_swp_rows (initial w annual : ℚ) (years : ℕ) : List (ℕ × ℚ × ℚ) :=
  (List.range years).map fun y =>
    let s := swpRun (monthlyRate annual) w ⟨initial, 0⟩ ((y + 1) * 12)
    (y + 1, s.amount, s.withdrawn)

/-! ## calculate_multiple_sips (lines 204-249) -/

/-- One entry of `sips_list`: `{'amount': .., 'rate': .., 'step_up': ..}`. -/
structure SipConfig where
  amount : ℚ
  rate : ℚ
  step_up : ℚ
deriving Repr

/-- Stand-alone value of one SIP stream after `months` months, started from 0
(the source always calls `calculate_sip(sip['amount'], sip['rate'], years,
sip.get('step_up', 0), 0)`, line 226-228). -/
def sipStreamValue (c : SipConfig) (months : ℕ) : ℚ :=
  (sipRun (monthlyRate c.rate) c.step_up (sipInit c.amount 0) months).amount

/-- Stand-alone invested-to-date of one SIP stream after `months` months. -/
def sipStreamInvested (c : SipConfig) (months : ℕ) : ℚ :=
  (sipRun (monthlyRate c.rate) c.step_up (sipInit c.amount 0) months).invested

/-- Total final amount of `calculate_multiple_sips` (lines 217-229): the
initial amount plus each stream's separately compounded final value. -/
def calculate_multiple_sips_final (sips : List SipConfig) (years : ℕ) (initial : ℚ) : ℚ :=
  if sips.isEmpty then initial
  else sips.foldl (fun acc c => acc + sipStreamValue c (years * 12)) initial

/-- Total invested of `calculate_multiple_sips` (lines 217-230). -/
def calculate_multiple_sips_invested (sips : List SipConfig) (years : ℕ) (initial : ℚ) : ℚ :=
  if sips.isEmpty then initial
  else sips.foldl (fun acc c => acc + sipStreamInvested c (years * 12)) initial

/-- Column `Total_SIP_Value` for a given year (line 246): the sum over the
per-stream display columns `SIP_i_Value`. -/
def totalSipValueYear (sips : List SipConfig) (y : ℕ) : ℚ :=
  sips.foldl (fun acc c => acc + sipStreamValue c (y * 12)) 0

/-- Column `Total_SIP_Invested` for a given year (line 247). -/
def totalSipInvestedYear (sips : List SipConfig) (y : ℕ) : ℚ :=
  sips.foldl (fun acc c => acc + sipStreamInvested c (y * 12)) 0

/-- Combined year-wise table of `calculate_multiple_sips`, keeping the `Year`
column and the two total columns read downstream (per-stream columns elided):
empty DataFrame when the stream list is empty (line 218). -/
def calculate_multiple_sips_rows (sips : List SipConfig) (years : ℕ) :
    List (ℕ × ℚ × ℚ) :=
  if sips.isEmpty then []
  else (List.range years).map fun y =>
    (y + 1, totalSipValueYear sips (y + 1), totalSipInvestedYear sips (y + 1))

/-! ## calculate_multiple_lumpsums (lines 251-296) -/

/-- One entry of `lumpsums_list`: `{'amount': .., 'rate': ..}`. -/
structure LumpsumConfig where
  amount : ℚ
  rate : ℚ
deriving Repr

/-- Stand-alone value of one lumpsum stream at year `y` (the source calls
`calculate_lumpsum(lumpsum['amount'], lumpsum['rate'], years, 0)`, line 273-275). -/
def lumpsumStreamValue (c : LumpsumConfig) (y : ℕ) : ℚ :=
  (c.amount + 0) * (1 + c.rate / 100) ^ y

/-- Total final amount of `calculate_multiple_lumpsums` (lines 264-276). -/
def calculate_multiple_lumpsums_final (ls : List LumpsumConfig) (years : ℕ) (initial : ℚ) : ℚ :=
  if ls.isEmpty then initial
  else ls.foldl (fun acc c => acc + lumpsumStreamValue c years) initial

/-- Total invested of `calculate_multiple_lumpsums` (lines 264-277); each
stream's invested is its `total_principal = amount + 0`. -/
def calculate_multiple_lumpsums_invested (ls : List LumpsumConfig) (initial : ℚ) : ℚ :=
  if ls.isEmpty then initial
  else ls.foldl (fun acc c => acc + (c.amount + 0)) initial

/-- Column `Total_Lumpsum_Value` for a given year (line 293). -/
def totalLumpsumValueYear (ls : List LumpsumConfig) (y : ℕ) : ℚ :=
  ls.foldl (fun acc c => acc + lumpsumStreamValue c y) 0

/-! ## calculate_multiple_swps (lines 298-336) -/

/-- One entry of `swps_list`: `{'amount': .., 'rate': .., 'start_year': ..}`.
Note `start_year` is carried but never read by `calculate_multiple_swps` or
`calculate_swp`. -/
structure SwpConfig where
  amount : ℚ
  rate : ℚ
  start_year : ℕ
deriving Repr

/-- Sequential application of the SWP streams (lines 321-326): each stream runs
`calculate_swp` for the full duration at its own rate, starting from the
remaining amount left by the previous stream; withdrawals accumulate. -/
def calculate_multiple_swps_run (swps : List SwpConfig) (start : ℚ) (years : ℕ) : ℚ × ℚ :=
  swps.foldl
    (fun acc c =>
      let r := calculate_swp_final acc.1 c.amount c.rate years
      (r.1, acc.2 + r.2))
    (start, 0)

/-- Pair `(remaining_amount, total_withdrawn)` of `calculate_multiple_swps`
(lines 311-336); `(0, 0)` when either list is empty, otherwise the sequential
fold started from `portfolio_values[-1]`. -/
def calculate_multiple_swps_final (swps : List SwpConfig) (pvs : List ℚ) (years : ℕ) : ℚ × ℚ :=
  if swps.isEmpty || pvs.isEmpty then (0, 0)
  else calculate_multiple_swps_run swps (pvs.getLastD 0) years

/-! ## apply_inflation_adjustment (lines 338-359) -/

/-- Deflation of a list of nominal values by the cumulative-year exponents
(lines 350-359); the identity when `inflation_rate ≤ 0` (line 350-351). All
call sites in the repository pass `cumulative_years` as a list of the same
length as `nominal_values`, which `List.zip` reproduces exactly. -/
def apply_inflation_adjustment (nominal : List ℚ) (infl : ℚ) (cys : List ℕ) : List ℚ :=
  if infl ≤ 0 then nominal
  else (nominal.zip cys).map fun p => p.1 / (1 + infl / 100) ^ p.2

/-! ## calculate_combined_portfolio_parallel (lines 361-506) -/

/-- Arguments of one phase projection (`calculate_combined_portfolio_parallel`). -/
structure PhaseConfig where
  sips : List SipConfig
  lumpsums : List LumpsumConfig
  swps : List SwpConfig
  years : ℕ
  rollover : ℚ
  additional : ℚ
  lumpsum_roi : ℚ
  inflation : ℚ
  phase_start_year : ℕ
deriving Repr

/-- Combined lumpsum `rollover_nominal + additional_lumpsum` (line 397). -/
def combinedLumpsumAmount (cfg : PhaseConfig) : ℚ :=
  cfg.rollover + cfg.additional

/-- Value of the combined lumpsum at year `y` (lines 401-404 for `y = years`
and lines 451-454 for the year rows, which use the same formula):
`amount * (1 + lumpsum_roi/100) ^ y` when the amount is positive, else 0. -/
def combinedLumpsumValueYear (cfg : PhaseConfig) (y : ℕ) : ℚ :=
  if 0 < combinedLumpsumAmount cfg then
    combinedLumpsumAmount cfg * (1 + cfg.lumpsum_roi / 100) ^ y
  else 0

/-- Portfolio nominal value before any SWP (line 415):
`sip_final + (combined_lumpsum_final + other_lumpsum_final)`. -/
def preSwpNominal (cfg : PhaseConfig) : ℚ :=
  calculate_multiple_sips_final cfg.sips cfg.years 0 +
    (combinedLumpsumValueYear cfg cfg.years +
      calculate_multiple_lumpsums_final cfg.lumpsums cfg.years 0)

/-- Pair `(portfolio_value_nominal, total_withdrawn)` after the SWP block
(lines 417-424). -/
def phaseSwp (cfg : PhaseConfig) : ℚ × ℚ :=
  if cfg.swps.isEmpty then (preSwpNominal cfg, 0)
  else calculate_multiple_swps_final cfg.swps [preSwpNominal cfg] cfg.years

/-- Nominal final value returned by the phase (first return value, line 506). -/
def phaseNominalFinal (cfg : PhaseConfig) : ℚ :=
  (phaseSwp cfg).1

/-- Total withdrawn returned by the phase. -/
def phaseWithdrawn (cfg : PhaseConfig) : ℚ :=
  (phaseSwp cfg).2

/-- Total invested returned by the phase (line 414):
`sip_invested + (combined_lumpsum_invested + other_lumpsum_invested)`. -/
def phaseInvested (cfg : PhaseConfig) : ℚ :=
  calculate_multiple_sips_invested cfg.sips cfg.years 0 +
    (combinedLumpsumAmount cfg + calculate_multiple_lumpsums_invested cfg.lumpsums 0)

/-- Column `Nominal_Portfolio_Value` of the year row for year `y` (lines
472-486): the sum of the per-stream display values, except that when SWPs are
present it is overwritten with the first SWP's `Remaining_Value` at that year
(line 480; `combined_data` of `calculate_multiple_swps` keeps the first
stream's `Remaining_Value` column). -/
def phaseNominalRow (cfg : PhaseConfig) (y : ℕ) : ℚ :=
  match cfg.swps with
  | [] =>
    totalSipValueYear cfg.sips y +
      (combinedLumpsumValueYear cfg y + totalLumpsumValueYear cfg.lumpsums y)
  | c :: _ =>
    (swpRun (monthlyRate c.rate) c.amount ⟨preSwpNominal cfg, 0⟩ (y * 12)).amount

/-- Column `Nominal_Portfolio_Value` down the whole table (lines 427-490). -/
def phaseNominalRows (cfg : PhaseConfig) : List ℚ :=
  (List.range cfg.years).map fun i => phaseNominalRow cfg (i + 1)

/-- Column `Cumulative_Years` (line 430): `phase_start_year + year`. -/
def phaseCumYears (cfg : PhaseConfig) : List ℕ :=
  (List.range cfg.years).map fun i => cfg.phase_start_year + (i + 1)

/-- Column `Real_Portfolio_Value` (lines 492-500): deflated by cumulative
years when `inflation_rate > 0` and the table is non-empty, else a copy of the
nominal column. -/
def phaseRealRows (cfg : PhaseConfig) : List ℚ :=
  if 0 < cfg.inflation ∧ cfg.years ≠ 0 then
    apply_inflation_adjustment (phaseNominalRows cfg) cfg.inflation (phaseCumYears cfg)
  else phaseNominalRows cfg

/-- Real final value returned by the phase (lines 498-501): the last entry of
the real column when `inflation_rate > 0` and the table is non-empty, else the
nominal final. -/
def phaseRealFinal (cfg : PhaseConfig) : ℚ :=
  if 0 < cfg.inflation ∧ cfg.years ≠ 0 then (phaseRealRows cfg).getLastD 0
  else phaseNominalFinal cfg

/-! ## Phase chaining in main (lines 1211-1244) -/

/-- Per-phase inputs of the chain loop in `main`: the additional-investment
top-up folded into the rollover (line 1226; the phase-1 iteration has no such
input, callers model it as 0) together with the phase's own parameters. -/
structure ChainPhase where
  addInv : ℚ
  sips : List SipConfig
  lumpsums : List LumpsumConfig
  swps : List SwpConfig
  years : ℕ
  additional : ℚ
  lumpsum_roi : ℚ
  inflation : ℚ
deriving Repr

/-- Phase configuration built by the chain loop for the current rollover and
cumulative years (lines 1008-1018 via `portfolio_investment_section`). -/
def toCfg (rollover : ℚ) (cum : ℕ) (p : ChainPhase) : PhaseConfig :=
  ⟨p.sips, p.lumpsums, p.swps, p.years, rollover, p.additional, p.lumpsum_roi,
    p.inflation, cum⟩

/-- The `(rollover_amount, cumulative_years)` pair actually passed to each
phase, in order (lines 1211-1240): before a phase runs, the pending
additional investment is added to the rollover; after it runs, the rollover
becomes the phase's nominal final and the cumulative years grow by the
phase's duration (`len(portfolio_df) = years`). -/
def chainInputs : ℚ × ℕ → List ChainPhase → List (ℚ × ℕ)
  | _, [] => []
  | (ro, cy), p :: ps =>
    let ro' := ro + p.addInv
    (ro', cy) ::
      chainInputs (phaseNominalFinal (toCfg ro' cy p), cy + p.years) ps

/-! ## Specification-side model for the pooled-ledger comparison -/

/-- Modelled from the spec (LedgerAccumulator, section 4.3): a pooled balance
seeded with the phase's initial lumpsum, to which every month all contribution
amounts are added and growth is applied once at a single shared monthly factor
`g`. The source has no such pooled ledger; this definition exists only to be
compared against the source-side `phaseNominalFinal`. -/
def spec_pooledBalance (g contrib init : ℚ) : ℕ → ℚ
  | 0 => init
  | n + 1 => (spec_pooledBalance g contrib init n + contrib) * g

/-! ## calculate_combined_investment (lines 131-202) -/

/-- Arguments of `calculate_combined_investment` (lines 131-140). -/
structure CombinedParams where
  sip_amount : ℚ
  lumpsum : ℚ
  annual_rate : ℚ
  step_up : ℚ
  initial : ℚ
  swp_w : ℚ
  swp_start : ℕ
deriving Repr

/-- Loop state of `calculate_combined_investment` (lines 161-165). -/
structure CombinedState where
  amount : ℚ
  invested : ℚ
  sipInvested : ℚ
  withdrawn : ℚ
  sip : ℚ
deriving Repr

/-- Initial state of the `calculate_combined_investment` loop (lines 161-165). -/
def combinedInit (p : CombinedParams) : CombinedState :=
  ⟨p.initial + p.lumpsum, p.initial + p.lumpsum, 0, 0, p.sip_amount⟩

/-- SIP contribution block of the month loop (lines 168-172). -/
def combinedContrib (p : CombinedParams) (s : CombinedState) : CombinedState :=
  if 0 < p.sip_amount then
    { s with
      invested := s.invested + s.sip
      sipInvested := s.sipInvested + s.sip
      amount := s.amount + s.sip }
  else s

/-- Growth block of the month loop (lines 174-175). -/
def combinedGrow (p : CombinedParams) (s : CombinedState) : CombinedState :=
  { s with amount := s.amount * (1 + monthlyRate p.annual_rate) }

/-- SWP block of the month loop (lines 177-182): withdraw only when a
withdrawal is configured, the current year `(month-1)/12 + 1` has reached the
SWP start year, and the balance covers the withdrawal. -/
def combinedWithdraw (p : CombinedParams) (month : ℕ) (s : CombinedState) : CombinedState :=
  if 0 < p.swp_w ∧ p.swp_start ≤ (month - 1) / 12 + 1 ∧ p.swp_w ≤ s.amount then
    { s with amount := s.amount - p.swp_w, withdrawn := s.withdrawn + p.swp_w }
  else s

/-- Annual step-up block of the month loop (lines 184-186). -/
def combinedStepUp (p : CombinedParams) (month : ℕ) (s : CombinedState) : CombinedState :=
  if month % 12 = 0 ∧ 0 < p.step_up ∧ 0 < p.sip_amount then
    { s with sip := s.sip * (1 + p.step_up / 100) }
  else s

/-- One iteration of the `calculate_combined_investment` month loop (lines
167-186), the four blocks in source order. -/
def combinedStep (p : CombinedParams) (month : ℕ) (s : CombinedState) : CombinedState :=
  combinedStepUp p month (combinedWithdraw p month (combinedGrow p (combinedContrib p s)))

/-- State after the first `n` months of the `calculate_combined_investment`
loop. -/
def combinedRun (p : CombinedParams) : ℕ → CombinedState
  | 0 => combinedInit p
  | n + 1 => combinedStep p (n + 1) (combinedRun p n)

/-- Combined year-wise table of `calculate_multiple_lumpsums` (lines 283-294),
keeping `Year` and the two total columns (per-stream columns elided); the
invested total is constant down the years. -/
def calculate_multiple_lumpsums_rows (ls : List LumpsumConfig) (years : ℕ) :
    List (ℕ × ℚ × ℚ) :=
  if ls.isEmpty then []
  else (List.range years).map fun y =>
    (y + 1, totalLumpsumValueYear ls (y + 1), calculate_multiple_lumpsums_invested ls 0)

/-! ## Concrete configurations used in counterexamples and witnesses -/

/-- Phase with two SIP streams of 1/month at 0% and 1200% annual rate, one
year, nothing else. -/
def c1Cfg : PhaseConfig :=
  ⟨[⟨1, 0, 0⟩, ⟨1, 1200, 0⟩], [], [], 1, 0, 0, 0, 0, 0⟩

/-- Phase 1 of the two-phase regression scenario: lumpsum 1,000,000, ROI 12%,
10 years, 6% inflation, zero cumulative years before the phase. -/
def c2Phase1 : PhaseConfig := ⟨[], [], [], 10, 0, 1000000, 12, 6, 0⟩

/-- Phase 2 of the two-phase regression scenario: rollover of phase 1's
nominal final, ROI 12%, 10 more years, 6% inflation, 10 cumulative years
before the phase. -/
def c2Phase2 : PhaseConfig :=
  toCfg (phaseNominalFinal c2Phase1) 10 ⟨0, [], [], [], 10, 0, 12, 6⟩

/-- Phase with a single SWP stream (10/month, 0% rate, start_year 2) over a
1000 lumpsum at 0% ROI for 2 years. -/
def c3Cfg : PhaseConfig := ⟨[], [], [⟨10, 0, 2⟩], 2, 0, 1000, 0, 0, 0⟩

/-- Phase whose combined lumpsum `rollover + additional = -5` is negative. -/
def c4NegCfg : PhaseConfig := ⟨[], [], [], 1, -5, 0, 12, 0, 0⟩

/-- Chain phase 1: additional lumpsum 100 at 0% ROI for 1 year. -/
def c6P1 : ChainPhase := ⟨0, [], [], [], 1, 100, 0, 0⟩

/-- Chain phase 2: additional-investment top-up of 100, otherwise empty. -/
def c6P2 : ChainPhase := ⟨100, [], [], [], 1, 0, 0, 0⟩

/-! ## Error paths of the multi-stream calculators and the phase projector -/

/-- Result of `calculate_multiple_sips` including its error path: with a
non-empty stream list and `years = 0`, each per-stream frame of line 226 is
empty (no columns), so line 233 (`df['Current_Value']`) raises `KeyError`
before anything is returned — modeled as `none`. Every other input returns
the totals and the combined table. -/
def calculate_multiple_sips_checked (sips : List SipConfig) (years : ℕ)
    (initial : ℚ) : Option (ℚ × ℚ × List (ℕ × ℚ × ℚ)) :=
  if sips.isEmpty then some (initial, initial, [])
  else if years = 0 then none
  else some (calculate_multiple_sips_final sips years initial,
    calculate_multiple_sips_invested sips years initial,
    calculate_multiple_sips_rows sips years)

/-- Result of `calculate_multiple_lumpsums` including its error path: with a
non-empty list and `years = 0`, line 280 (`df['Current_Value']`) raises
`KeyError` on the column-less empty frame — modeled as `none`. -/
def calculate_multiple_lumpsums_checked (ls : List LumpsumConfig) (years : ℕ)
    (initial : ℚ) : Option (ℚ × ℚ × List (ℕ × ℚ × ℚ)) :=
  if ls.isEmpty then some (initial, initial, [])
  else if years = 0 then none
  else some (calculate_multiple_lumpsums_final ls years initial,
    calculate_multiple_lumpsums_invested ls initial,
    calculate_multiple_lumpsums_rows ls years)

/-- Result of `calculate_combined_portfolio_parallel` including its error
path: with `years = 0` the source raises `KeyError` — at line 233 or 280 when
a stream list is non-empty, at line 330 when SWPs are present, and in every
remaining case at line 500, which reads the missing
`Nominal_Portfolio_Value` column of the empty table — modeled as `none`.
With `years ≥ 1` every input, valid or not, produces the complete result
`(nominal_final, real_final, total_invested, total_withdrawn, real column)`. -/
def phase_checked (cfg : PhaseConfig) : Option (ℚ × ℚ × ℚ × ℚ × List ℚ) :=
  if cfg.years = 0 then none
  else some (phaseNominalFinal cfg, phaseRealFinal cfg, phaseInvested cfg,
    phaseWithdrawn cfg, phaseRealRows cfg)

/-! ## Helper lemmas -/

/-- The monthly rate of a non-negative annual rate is non-negative. -/
theorem monthlyRate_nonneg {r : ℚ} (h : 0 ≤ r) : 0 ≤ monthlyRate r :=
  div_nonneg (div_nonneg h (by norm_num)) (by norm_num)

/-- Last element of a table built over `List.range`. -/
theorem map_range_getLastD (f : ℕ → ℚ) (n : ℕ) (hn : n ≠ 0) :
    ((List.range n).map f).getLastD 0 = f (n - 1) := by
  obtain ⟨m, rfl⟩ : ∃ m, n = m + 1 := ⟨n - 1, by omega⟩
  rw [List.range_succ, List.map_append]
  simp

/-! ## C9 -/

/-- C9: for every list of nominal values and every cumulative-years argument,
`apply_inflation_adjustment` with `inflation_rate ≤ 0` returns the input
sequence unchanged (the embedding is pure, mirroring that the Python function
returns its argument without touching it). -/
theorem C9_inflation_identity (vals : List ℚ) (infl : ℚ) (cys : List ℕ)
    (h : infl ≤ 0) : apply_inflation_adjustment vals infl cys = vals := by
  simp [apply_inflation_adjustment, h]

/-- Witness for C9 at a concrete input. -/
theorem C9_inflation_identity_witness :
    apply_inflation_adjustment [5, 7] 0 [3, 9] = [5, 7] :=
  C9_inflation_identity [5, 7] 0 [3, 9] (by norm_num)

/-! ## C10 -/

/-- C10: with an empty stream list, `calculate_multiple_sips` and
`calculate_multiple_lumpsums` return the initial amount unchanged as both the
final amount and the total invested, with an empty year-wise table, for every
duration and every initial amount: no growth is applied. -/
theorem C10_empty_streams (years : ℕ) (initial : ℚ) :
    calculate_multiple_sips_final [] years initial = initial ∧
    calculate_multiple_sips_invested [] years initial = initial ∧
    calculate_multiple_sips_rows [] years = [] ∧
    calculate_multiple_lumpsums_final [] years initial = initial ∧
    calculate_multiple_lumpsums_invested [] initial = initial ∧
    calculate_multiple_lumpsums_rows [] years = [] := by
  refine ⟨?_, ?_, ?_, ?_, ?_, ?_⟩ <;>
    simp [calculate_multiple_sips_final, calculate_multiple_sips_invested,
      calculate_multiple_sips_rows, calculate_multiple_lumpsums_final,
      calculate_multiple_lumpsums_invested, calculate_multiple_lumpsums_rows]

/-! ## C8 -/

/-- Lumpsum-only phase configuration: no SIP, lumpsum or SWP streams, only the
combined lumpsum `principal` growing at `rate`. -/
def lumpsumOnlyPhase (principal rate : ℚ) (years : ℕ) : PhaseConfig :=
  ⟨[], [], [], years, 0, principal, rate, 0, 0⟩

/-- C8: for every principal ≥ 0, rate ≥ 0 and integer years ≥ 1, a
lumpsum-only projection returns `principal * (1 + rate/100) ^ years`, both via
`calculate_lumpsum` and via the phase projector; with rate 0 the phase's final
balance is exactly the principal. -/
theorem C8_lumpsum_closed_form (principal rate : ℚ) (years : ℕ)
    (hp : 0 ≤ principal) (hr : 0 ≤ rate) (hy : 1 ≤ years) :
    calculate_lumpsum_final principal rate years 0 =
      principal * (1 + rate / 100) ^ years ∧
    phaseNominalFinal (lumpsumOnlyPhase principal rate years) =
      principal * (1 + rate / 100) ^ years ∧
    phaseNominalFinal (lumpsumOnlyPhase principal 0 years) = principal := by
  have hph : ∀ r : ℚ, phaseNominalFinal (lumpsumOnlyPhase principal r years) =
      if 0 < principal then principal * (1 + r / 100) ^ years else 0 := by
    intro r
    simp [phaseNominalFinal, phaseSwp, preSwpNominal, lumpsumOnlyPhase,
      calculate_multiple_sips_final, calculate_multiple_lumpsums_final,
      combinedLumpsumValueYear, combinedLumpsumAmount]
  refine ⟨by simp [calculate_lumpsum_final], ?_, ?_⟩
  · rw [hph]
    rcases lt_or_eq_of_le hp with h | h
    · rw [if_pos h]
    · rw [if_neg (by rw [← h]; exact lt_irrefl 0)]
      rw [← h]; ring
  · rw [hph]
    rcases lt_or_eq_of_le hp with h | h
    · rw [if_pos h]; norm_num
    · rw [if_neg (by rw [← h]; exact lt_irrefl 0)]; rw [← h]

/-- Witness for C8 at principal 100, rate 12, one year. -/
theorem C8_lumpsum_closed_form_witness :
    calculate_lumpsum_final 100 12 1 0 = 100 * (1 + 12 / 100) ^ 1 ∧
    phaseNominalFinal (lumpsumOnlyPhase 100 12 1) = 100 * (1 + 12 / 100) ^ 1 ∧
    phaseNominalFinal (lumpsumOnlyPhase 100 0 1) = 100 :=
  C8_lumpsum_closed_form 100 12 1 (by norm_num) (by norm_num) (by norm_num)

/-! ## C5 -/

/-- One `calculate_swp` step keeps a non-negative balance non-negative when
the growth factor is non-negative. -/
theorem swpStep_nonneg (mr w : ℚ) (hmr : 0 ≤ 1 + mr) (s : SwpState)
    (h : 0 ≤ s.amount) : 0 ≤ (swpStep mr w s).amount := by
  unfold swpStep
  dsimp only
  split_ifs with hle
  · dsimp only; linarith
  · dsimp only; exact mul_nonneg h hmr

/-- The `calculate_swp` balance stays non-negative at every month. -/
theorem swpRun_nonneg (mr w : ℚ) (hmr : 0 ≤ 1 + mr) (init : SwpState)
    (h : 0 ≤ init.amount) : ∀ n, 0 ≤ (swpRun mr w init n).amount := by
  intro n
  induction n with
  | zero => simpa [swpRun] using h
  | succ n ih => exact swpStep_nonneg mr w hmr _ ih

/-- One `calculate_combined_investment` step keeps balance and SIP amount
non-negative when the rate is non-negative and the SIP amount field is. -/
theorem combinedStep_nonneg (p : CombinedParams) (hr : 0 ≤ p.annual_rate)
    (month : ℕ) (s : CombinedState) (h : 0 ≤ s.amount) (hs : 0 ≤ s.sip) :
    0 ≤ (combinedStep p month s).amount ∧ 0 ≤ (combinedStep p month s).sip := by
  have hmr : (0 : ℚ) ≤ 1 + monthlyRate p.annual_rate := by
    have := monthlyRate_nonneg hr; linarith
  have h1 : 0 ≤ (combinedContrib p s).amount ∧ 0 ≤ (combinedContrib p s).sip := by
    unfold combinedContrib; split_ifs <;> constructor <;> dsimp only <;> linarith
  have h2 : 0 ≤ (combinedGrow p (combinedContrib p s)).amount ∧
      0 ≤ (combinedGrow p (combinedContrib p s)).sip := by
    unfold combinedGrow
    exact ⟨mul_nonneg h1.1 hmr, h1.2⟩
  set t := combinedGrow p (combinedContrib p s) with ht
  have h3 : 0 ≤ (combinedWithdraw p month t).amount ∧
      0 ≤ (combinedWithdraw p month t).sip := by
    unfold combinedWithdraw
    split_ifs with hw
    · exact ⟨by dsimp only; linarith [hw.2.2], h2.2⟩
    · exact h2
  unfold combinedStep
  rw [← ht]
  unfold combinedStepUp
  split_ifs with hsu
  · refine ⟨h3.1, ?_⟩
    dsimp only
    have : (0 : ℚ) ≤ 1 + p.step_up / 100 := by linarith [hsu.2.1]
    exact mul_nonneg h3.2 this
  · exact h3

/-- The `calculate_combined_investment` balance and SIP amount stay
non-negative at every month. -/
theorem combinedRun_nonneg (p : CombinedParams) (hr : 0 ≤ p.annual_rate)
    (hsip : 0 ≤ p.sip_amount) (hinit : 0 ≤ p.initial + p.lumpsum) :
    ∀ n, 0 ≤ (combinedRun p n).amount ∧ 0 ≤ (combinedRun p n).sip := by
  intro n
  induction n with
  | zero => exact ⟨hinit, hsip⟩
  | succ n ih => exact combinedStep_nonneg p hr (n + 1) _ ih.1 ih.2

/-- C5: with non-negative initial balance, non-negative withdrawal amounts and
the engine's non-negative rates, the balance is never pushed negative: the
post-withdrawal balance is ≥ 0 at every month of `calculate_swp` and of
`calculate_combined_investment`, and in a month whose grown balance does not
cover the withdrawal the withdrawal is skipped entirely (balance and withdrawn
total untouched). -/
theorem C5_withdrawal_floor :
    (∀ initial w annual : ℚ, 0 ≤ initial → 0 ≤ w → 0 ≤ annual →
      ∀ n, 0 ≤ (swpRun (monthlyRate annual) w ⟨initial, 0⟩ n).amount) ∧
    (∀ (mr w : ℚ) (s : SwpState), s.amount * (1 + mr) < w →
      swpStep mr w s = ⟨s.amount * (1 + mr), s.withdrawn⟩) ∧
    (∀ (p : CombinedParams) (month : ℕ) (s : CombinedState),
      s.amount * (1 + monthlyRate p.annual_rate) < p.swp_w →
      combinedWithdraw p month (combinedGrow p s) = combinedGrow p s) ∧
    (∀ p : CombinedParams, 0 ≤ p.annual_rate → 0 ≤ p.sip_amount →
      0 ≤ p.initial + p.lumpsum → ∀ n, 0 ≤ (combinedRun p n).amount) := by
  refine ⟨?_, ?_, ?_, ?_⟩
  · intro initial w annual hi hw ha n
    have hmr : (0 : ℚ) ≤ 1 + monthlyRate annual := by
      have := monthlyRate_nonneg ha; linarith
    exact swpRun_nonneg _ w hmr ⟨initial, 0⟩ hi n
  · intro mr w s h
    unfold swpStep
    dsimp only
    rw [if_neg (by linarith)]
  · intro p month s h
    unfold combinedWithdraw combinedGrow
    dsimp only
    rw [if_neg (by rintro ⟨-, -, h2⟩; linarith)]
  · intro p hr hsip hinit n
    exact (combinedRun_nonneg p hr hsip hinit n).1

/-- Witness for C5 at concrete inputs. -/
theorem C5_withdrawal_floor_witness :
    0 ≤ (swpRun (monthlyRate 12) 100 ⟨1000, 0⟩ 3).amount ∧
    0 ≤ (combinedRun ⟨50, 0, 12, 0, 1000, 100, 1⟩ 3).amount :=
  ⟨C5_withdrawal_floor.1 1000 100 12 (by norm_num) (by norm_num) (by norm_num) 3,
    C5_withdrawal_floor.2.2.2 ⟨50, 0, 12, 0, 1000, 100, 1⟩ (by norm_num)
      (by norm_num) (by norm_num) 3⟩

/-! ## C7 -/

/-- The SIP contribution amount of `calculate_sip` after `n` months equals the
initial amount times one step-up factor per completed block of 12 months. -/
theorem sipRun_sip_closed (mr su a i0 : ℚ) (hsu : 0 < su) :
    ∀ n, (sipRun mr su (sipInit a i0) n).sip = a * (1 + su / 100) ^ (n / 12) := by
  intro n
  induction n with
  | zero => simp [sipRun, sipInit]
  | succ n ih =>
    rw [sipRun]
    unfold sipStep
    dsimp only
    by_cases h : (n + 1) % 12 = 0
    · have h12 : (n + 1) / 12 = n / 12 + 1 := by omega
      rw [if_pos ⟨h, hsu⟩, ih, h12, pow_succ]
      ring
    · have h12 : (n + 1) / 12 = n / 12 := by omega
      rw [if_neg (by rintro ⟨h0, -⟩; exact h h0), ih, h12]

/-- The `calculate_combined_investment` SIP amount obeys the same schedule. -/
theorem combinedRun_sip_closed (p : CombinedParams) (hsu : 0 < p.step_up)
    (hsa : 0 < p.sip_amount) :
    ∀ n, (combinedRun p n).sip = p.sip_amount * (1 + p.step_up / 100) ^ (n / 12) := by
  intro n
  induction n with
  | zero => simp [combinedRun, combinedInit]
  | succ n ih =>
    rw [combinedRun]
    unfold combinedStep combinedStepUp
    have hsip : ∀ s : CombinedState,
        (combinedWithdraw p (n + 1) (combinedGrow p (combinedContrib p s))).sip = s.sip := by
      intro s
      unfold combinedWithdraw combinedGrow combinedContrib
      split_ifs <;> rfl
    by_cases h : (n + 1) % 12 = 0
    · have h12 : (n + 1) / 12 = n / 12 + 1 := by omega
      rw [if_pos ⟨h, hsu, hsa⟩]
      dsimp only
      rw [hsip, ih, h12, pow_succ]
      ring
    · have h12 : (n + 1) / 12 = n / 12 := by omega
      rw [if_neg (by rintro ⟨h0, -⟩; exact h h0), hsip, ih, h12]

/-- C7: with `step_up_percent > 0`, the step-up multiplies the contribution by
`1 + step_up/100` exactly once per 12 periods, strictly after the 12th
period's contribution and growth and before the 13th period's contribution:
the contribution made in month `m` (the SIP amount held after `m - 1` steps)
is `amount * (1 + step_up/100) ^ ((m-1)/12)`, so months 1-12 contribute the
initial amount, months 13-24 contribute it times one factor, and so on; the
same holds in `calculate_combined_investment`. -/
theorem C7_stepup_schedule :
    (∀ (mr su a i0 : ℚ) (m : ℕ), 0 < su → 1 ≤ m →
      (sipRun mr su (sipInit a i0) (m - 1)).sip =
        a * (1 + su / 100) ^ ((m - 1) / 12)) ∧
    (∀ (mr su a i0 : ℚ) (m : ℕ), 0 < su → 1 ≤ m → m ≤ 12 →
      (sipRun mr su (sipInit a i0) (m - 1)).sip = a) ∧
    (∀ (mr su a i0 : ℚ) (m : ℕ), 0 < su → 13 ≤ m → m ≤ 24 →
      (sipRun mr su (sipInit a i0) (m - 1)).sip = a * (1 + su / 100)) ∧
    (∀ (p : CombinedParams) (m : ℕ), 0 < p.step_up → 0 < p.sip_amount → 1 ≤ m →
      (combinedRun p (m - 1)).sip =
        p.sip_amount * (1 + p.step_up / 100) ^ ((m - 1) / 12)) := by
  refine ⟨?_, ?_, ?_, ?_⟩
  · intro mr su a i0 m hsu _
    exact sipRun_sip_closed mr su a i0 hsu (m - 1)
  · intro mr su a i0 m hsu h1 h2
    rw [sipRun_sip_closed mr su a i0 hsu (m - 1)]
    have : (m - 1) / 12 = 0 := by omega
    rw [this, pow_zero, mul_one]
  · intro mr su a i0 m hsu h1 h2
    rw [sipRun_sip_closed mr su a i0 hsu (m - 1)]
    have : (m - 1) / 12 = 1 := by omega
    rw [this, pow_one]
  · intro p m hsu hsa _
    exact combinedRun_sip_closed p hsu hsa (m - 1)

/-- Witness for C7: month 13 of a 5000/month SIP with 10% step-up contributes
5500. -/
theorem C7_stepup_schedule_witness :
    (sipRun (monthlyRate 12) 10 (sipInit 5000 0) (13 - 1)).sip =
      5000 * (1 + 10 / 100) ^ ((13 - 1) / 12) :=
  C7_stepup_schedule.1 (monthlyRate 12) 10 5000 0 13 (by norm_num) (by norm_num)

/-! ## C2 -/

/-- Unfolding of the year-row nominal value when the phase has no SWPs. -/
theorem phaseNominalRow_nil (cfg : PhaseConfig) (h : cfg.swps = []) (y : ℕ) :
    phaseNominalRow cfg y =
      totalSipValueYear cfg.sips y +
        (combinedLumpsumValueYear cfg y + totalLumpsumValueYear cfg.lumpsums y) := by
  obtain ⟨sips, lumps, swps, years, ro, ad, roi, infl, psy⟩ := cfg
  simp only at h
  subst h
  rfl

/-- Unfolding of the year-row nominal value when the phase has SWPs: the row
holds the first SWP stream's remaining value. -/
theorem phaseNominalRow_cons (cfg : PhaseConfig) (c : SwpConfig)
    (rest : List SwpConfig) (h : cfg.swps = c :: rest) (y : ℕ) :
    phaseNominalRow cfg y =
      (swpRun (monthlyRate c.rate) c.amount ⟨preSwpNominal cfg, 0⟩ (y * 12)).amount := by
  obtain ⟨sips, lumps, swps, years, ro, ad, roi, infl, psy⟩ := cfg
  simp only at h
  subst h
  rfl

/-- With positive inflation the real column is the nominal column deflated
pointwise by the cumulative-year exponents `phase_start_year + year`. -/
theorem phaseRealRows_eq (cfg : PhaseConfig) (hi : 0 < cfg.inflation) :
    phaseRealRows cfg = (List.range cfg.years).map fun i =>
      phaseNominalRow cfg (i + 1) /
        (1 + cfg.inflation / 100) ^ (cfg.phase_start_year + (i + 1)) := by
  by_cases hy : cfg.years = 0
  · simp [phaseRealRows, phaseNominalRows, hy]
  · unfold phaseRealRows
    rw [if_pos ⟨hi, hy⟩]
    unfold apply_inflation_adjustment
    rw [if_neg (by linarith)]
    unfold phaseNominalRows phaseCumYears
    rw [List.zip_map', List.map_map]
    rfl

/-- With positive inflation and a non-empty table, the phase's reported real
final value is the last nominal row deflated by the total cumulative years. -/
theorem phaseRealFinal_spec (cfg : PhaseConfig) (hi : 0 < cfg.inflation)
    (hy : cfg.years ≠ 0) :
    phaseRealFinal cfg = phaseNominalRow cfg cfg.years /
      (1 + cfg.inflation / 100) ^ (cfg.phase_start_year + cfg.years) := by
  unfold phaseRealFinal
  rw [if_pos ⟨hi, hy⟩, phaseRealRows_eq cfg hi, map_range_getLastD _ _ hy]
  have h1 : cfg.years - 1 + 1 = cfg.years := by omega
  rw [h1]

/-- C2: with `inflation_rate > 0`, the real value reported for year `y` of a
phase is the nominal value of that row divided by `(1 + inflation_rate/100)`
raised to `phase_start_year + y` (cumulative years since the start of the
plan), never to the phase-local year alone; and in the two-phase regression
scenario (lumpsum 1,000,000, ROI 12%, two 10-year phases, 6% inflation),
phase 2's real final value is deflated by 20 cumulative years and lies within
0.01 of 3,007,759.78. -/
theorem C2_cumulative_deflation :
    (∀ (cfg : PhaseConfig) (i : ℕ), 0 < cfg.inflation → i < cfg.years →
      (phaseRealRows cfg)[i]? =
        some (phaseNominalRow cfg (i + 1) /
          (1 + cfg.inflation / 100) ^ (cfg.phase_start_year + (i + 1)))) ∧
    |phaseRealFinal c2Phase2 - 300775978 / 100| < 1 / 100 := by
  constructor
  · intro cfg i hi hlt
    rw [phaseRealRows_eq cfg hi]
    simp [List.getElem?_map, List.getElem?_range, hlt]
  · have h1 : phaseNominalFinal c2Phase1 = 1000000 * (1 + 12 / 100) ^ 10 := by
      simp [phaseNominalFinal, phaseSwp, preSwpNominal, c2Phase1,
        calculate_multiple_sips_final, calculate_multiple_lumpsums_final,
        combinedLumpsumValueYear, combinedLumpsumAmount]
    have hpos : (0 : ℚ) < phaseNominalFinal c2Phase1 := by rw [h1]; positivity
    have hamt : combinedLumpsumAmount c2Phase2 = phaseNominalFinal c2Phase1 := by
      simp [combinedLumpsumAmount, c2Phase2, toCfg]
    have hc : combinedLumpsumValueYear c2Phase2 10 =
        phaseNominalFinal c2Phase1 * (1 + 12 / 100) ^ 10 := by
      unfold combinedLumpsumValueYear
      rw [if_pos (by rw [hamt]; exact hpos), hamt]
      norm_num [c2Phase2, toCfg]
    have h3 : phaseNominalRow c2Phase2 10 =
        phaseNominalFinal c2Phase1 * (1 + 12 / 100) ^ 10 := by
      rw [phaseNominalRow_nil c2Phase2 rfl 10]
      rw [hc]
      show 0 + (_ + 0) = _
      ring
    have h2 : phaseRealFinal c2Phase2 =
        phaseNominalFinal c2Phase1 * (1 + 12 / 100) ^ 10 / (1 + 6 / 100) ^ 20 := by
      rw [phaseRealFinal_spec c2Phase2 (by norm_num [c2Phase2, toCfg])
        (by norm_num [c2Phase2, toCfg])]
      show phaseNominalRow c2Phase2 10 / (1 + c2Phase2.inflation / 100) ^
        (c2Phase2.phase_start_year + c2Phase2.years) = _
      rw [h3]
      norm_num [c2Phase2, toCfg]
    rw [h2, h1, abs_lt]
    constructor <;> norm_num

/-- Witness for C2's general part at the first row of the scenario's phase 1. -/
theorem C2_cumulative_deflation_witness :
    (phaseRealRows c2Phase1)[0]? =
      some (phaseNominalRow c2Phase1 (0 + 1) /
        (1 + c2Phase1.inflation / 100) ^ (c2Phase1.phase_start_year + (0 + 1))) :=
  C2_cumulative_deflation.1 c2Phase1 0 (by norm_num [c2Phase1]) (by norm_num [c2Phase1])

/-! ## C1 -/

/-- C1 counterexample: in the phase `c1Cfg` with two SIP streams of 1/month at
rates 0% and 1200%, the year-1 nominal portfolio value is exactly the sum of
the two per-stream display values (8202 = 12 + 8190), so per-stream values
are summed back into it; and no pooled balance compounding once per month at
a single shared rate taken from the phase's rate parameters (0% for both the
first stream and the lumpsum ROI, 1200% for the second stream) produces it:
pooling the 2/month contributions gives 24 at g = 1 and 16380 at g = 2. -/
theorem C1_counterexample :
    phaseNominalRow c1Cfg 1 =
      sipStreamValue ⟨1, 0, 0⟩ 12 + sipStreamValue ⟨1, 1200, 0⟩ 12 ∧
    phaseNominalRow c1Cfg 1 = 8202 ∧
    phaseNominalFinal c1Cfg = 8202 ∧
    spec_pooledBalance (1 + monthlyRate 0) 2 0 12 = 24 ∧
    spec_pooledBalance (1 + monthlyRate 1200) 2 0 12 = 16380 ∧
    (8202 : ℚ) ≠ 24 ∧ (8202 : ℚ) ≠ 16380 := by
  have hrow : phaseNominalRow c1Cfg 1 =
      sipStreamValue ⟨1, 0, 0⟩ 12 + sipStreamValue ⟨1, 1200, 0⟩ 12 := by
    rw [phaseNominalRow_nil c1Cfg rfl 1]
    norm_num [c1Cfg, totalSipValueYear, totalLumpsumValueYear,
      combinedLumpsumValueYear, combinedLumpsumAmount]
  have hv1 : sipStreamValue ⟨1, 0, 0⟩ 12 = 12 := by
    norm_num [sipStreamValue, sipRun, sipStep, sipInit, monthlyRate]
  have hv2 : sipStreamValue ⟨1, 1200, 0⟩ 12 = 8190 := by
    norm_num [sipStreamValue, sipRun, sipStep, sipInit, monthlyRate]
  refine ⟨hrow, by rw [hrow, hv1, hv2]; norm_num, ?_, ?_, ?_, by norm_num, by norm_num⟩
  · have : phaseNominalFinal c1Cfg = phaseNominalRow c1Cfg 1 := by
      norm_num [phaseNominalFinal, phaseSwp, preSwpNominal, c1Cfg,
        calculate_multiple_sips_final, calculate_multiple_lumpsums_final,
        phaseNominalRow, totalSipValueYear, totalLumpsumValueYear,
        combinedLumpsumValueYear, combinedLumpsumAmount]
    rw [this, hrow, hv1, hv2]; norm_num
  · norm_num [spec_pooledBalance, monthlyRate]
  · norm_num [spec_pooledBalance, monthlyRate]

/-- C1 amended: in a phase projection without SWPs, each contribution stream
and lumpsum component compounds independently at its own rate, and the
nominal portfolio value IS the sum of the per-stream display values: the
scalar nominal final equals the sum of the per-stream year values at the
final year, which is exactly the last year row. -/
theorem C1_amended (cfg : PhaseConfig) (h : cfg.swps = []) :
    phaseNominalFinal cfg =
      totalSipValueYear cfg.sips cfg.years +
        (combinedLumpsumValueYear cfg cfg.years +
          totalLumpsumValueYear cfg.lumpsums cfg.years) ∧
    phaseNominalFinal cfg = phaseNominalRow cfg cfg.years := by
  have h1 : phaseNominalFinal cfg = preSwpNominal cfg := by
    unfold phaseNominalFinal phaseSwp
    rw [if_pos (by simp [h])]
  have h2 : calculate_multiple_sips_final cfg.sips cfg.years 0 =
      totalSipValueYear cfg.sips cfg.years := by
    cases cfg.sips <;>
      simp [calculate_multiple_sips_final, totalSipValueYear]
  have h3 : calculate_multiple_lumpsums_final cfg.lumpsums cfg.years 0 =
      totalLumpsumValueYear cfg.lumpsums cfg.years := by
    cases cfg.lumpsums <;>
      simp [calculate_multiple_lumpsums_final, totalLumpsumValueYear]
  have h4 : phaseNominalFinal cfg =
      totalSipValueYear cfg.sips cfg.years +
        (combinedLumpsumValueYear cfg cfg.years +
          totalLumpsumValueYear cfg.lumpsums cfg.years) := by
    rw [h1]; unfold preSwpNominal; rw [h2, h3]
  exact ⟨h4, by rw [h4, phaseNominalRow_nil cfg h]⟩

/-- Witness for C1's amended statement at the concrete two-stream phase. -/
theorem C1_amended_witness :
    phaseNominalFinal c1Cfg =
      totalSipValueYear c1Cfg.sips c1Cfg.years +
        (combinedLumpsumValueYear c1Cfg c1Cfg.years +
          totalLumpsumValueYear c1Cfg.lumpsums c1Cfg.years) ∧
    phaseNominalFinal c1Cfg = phaseNominalRow c1Cfg c1Cfg.years :=
  C1_amended c1Cfg rfl

/-! ## C3 -/

/-- C3 counterexample: in phase `c3Cfg` (1000 lumpsum at 0% ROI, 2 years, one
SWP of 10/month at 0% with `start_year = 2`), the engine withdraws in all 24
months, giving total withdrawn 240 and final 760; withdrawing only in months
of year ≥ 2 would give 120 and 880, so the start-year gate of the claim does
not hold in the phase projection. -/
theorem C3_counterexample :
    phaseWithdrawn c3Cfg = 240 ∧ phaseNominalFinal c3Cfg = 760 ∧
    (240 : ℚ) ≠ 120 := by
  refine ⟨?_, ?_, by norm_num⟩ <;>
    norm_num [phaseWithdrawn, phaseNominalFinal, phaseSwp, preSwpNominal,
      calculate_multiple_swps_final, calculate_multiple_swps_run,
      calculate_swp_final, swpRun, swpStep, calculate_multiple_sips_final,
      calculate_multiple_lumpsums_final, combinedLumpsumValueYear,
      combinedLumpsumAmount, c3Cfg, monthlyRate]

/-- The sequential SWP fold does not depend on the streams' `start_year`
fields. -/
theorem calculate_multiple_swps_run_map (swps : List SwpConfig)
    (g : SwpConfig → ℕ) (start : ℚ) (years : ℕ) :
    calculate_multiple_swps_run (swps.map fun c => ⟨c.amount, c.rate, g c⟩) start years =
      calculate_multiple_swps_run swps start years := by
  unfold calculate_multiple_swps_run
  rw [List.foldl_map]

/-- The whole phase SWP outcome does not depend on `start_year` fields. -/
theorem phaseSwp_start_year_irrel (cfg : PhaseConfig) (g : SwpConfig → ℕ) :
    phaseSwp { cfg with swps := cfg.swps.map fun c => ⟨c.amount, c.rate, g c⟩ } =
      phaseSwp cfg := by
  obtain ⟨sips, lumps, swps, years, ro, ad, roi, infl, psy⟩ := cfg
  cases swps with
  | nil => rfl
  | cons c rest =>
    unfold phaseSwp calculate_multiple_swps_final
    simp only [List.map_cons, List.isEmpty_cons, Bool.false_eq_true, if_false,
      Bool.false_or, List.isEmpty_nil]
    exact calculate_multiple_swps_run_map (c :: rest) g _ years

/-- C3 amended: in the parallel phase projection the SWP streams are applied
sequentially, each as a full-duration monthly simulation at its own rate
starting from the balance the previous stream left (the first from the
phase's pre-withdrawal final value); a stream's `start_year` is ignored
entirely; and within a simulation the monthly withdrawal happens exactly when
the grown balance covers the amount, and is skipped entirely otherwise. -/
theorem C3_amended :
    (∀ (cfg : PhaseConfig) (g : SwpConfig → ℕ),
      phaseNominalFinal { cfg with swps := cfg.swps.map fun c => ⟨c.amount, c.rate, g c⟩ } =
        phaseNominalFinal cfg ∧
      phaseWithdrawn { cfg with swps := cfg.swps.map fun c => ⟨c.amount, c.rate, g c⟩ } =
        phaseWithdrawn cfg) ∧
    (∀ cfg : PhaseConfig, cfg.swps ≠ [] →
      (phaseNominalFinal cfg, phaseWithdrawn cfg) =
        calculate_multiple_swps_run cfg.swps (preSwpNominal cfg) cfg.years) ∧
    (∀ (mr w : ℚ) (s : SwpState), w ≤ s.amount * (1 + mr) →
      swpStep mr w s = ⟨s.amount * (1 + mr) - w, s.withdrawn + w⟩) ∧
    (∀ (mr w : ℚ) (s : SwpState), s.amount * (1 + mr) < w →
      swpStep mr w s = ⟨s.amount * (1 + mr), s.withdrawn⟩) := by
  refine ⟨?_, ?_, ?_, ?_⟩
  · intro cfg g
    have key := phaseSwp_start_year_irrel cfg g
    exact ⟨congrArg Prod.fst key, congrArg Prod.snd key⟩
  · intro cfg h
    unfold phaseNominalFinal phaseWithdrawn phaseSwp calculate_multiple_swps_final
    rw [if_neg (by simpa [List.isEmpty_iff] using h)]
    rw [if_neg (by simp [List.isEmpty_iff, h])]
    rfl
  · intro mr w s h
    unfold swpStep
    dsimp only
    rw [if_pos h]
  · intro mr w s h
    unfold swpStep
    dsimp only
    rw [if_neg (by linarith)]

/-- Witness for C3's amended statement: a month whose grown balance covers the
withdrawal withdraws exactly the periodic amount. -/
theorem C3_amended_witness :
    swpStep 0 1 ⟨2, 0⟩ = ⟨(2 : ℚ) * (1 + 0) - 1, 0 + 1⟩ :=
  C3_amended.2.2.1 0 1 ⟨2, 0⟩ (by norm_num)

/-! ## C4 -/

/-- C4 counterexample: the engine performs no validation. `calculate_lumpsum`
with the negative annual rate -50% returns a complete result (final value 50
from principal 100 over 1 year) and a full one-row ledger instead of raising
`InvalidRateError` before the loop; the phase projector accepts the negative
combined lumpsum -5 of `c4NegCfg` and still produces a full ledger and a
total-invested figure of -5 instead of raising `InvalidLumpsumError`. -/
theorem C4_counterexample :
    calculate_lumpsum_final 100 (-50) 1 0 = 50 ∧
    calculate_lumpsum_rows 100 (-50) 1 0 = [(1, 100, 50, -50)] ∧
    phaseInvested c4NegCfg = -5 ∧
    (phaseNominalRows c4NegCfg).length = c4NegCfg.years := by
  refine ⟨by norm_num [calculate_lumpsum_final], ?_, ?_, ?_⟩
  · norm_num [calculate_lumpsum_rows, List.range_succ]
  · norm_num [phaseInvested, calculate_multiple_sips_invested,
      calculate_multiple_lumpsums_invested, combinedLumpsumAmount, c4NegCfg]
  · simp [phaseNominalRows]

/-- C4 amended: the engine performs no input validation and raises no
validation error. The single-stream calculators are total for every input;
for every duration ≥ 1 the multi-stream calculators and the phase projector
accept every input — negative rates, negative combined lumpsums, negative or
out-of-range stream parameters — and complete with a full ledger of exactly
`years` rows. The only failure is with duration < 1: an incidental `KeyError`
crash after the loops (modeled as `none`), on the missing columns of the
empty tables, which is not a validation of the inputs and not one of the
claimed typed errors raised before any iteration. -/
theorem C4_amended :
    (∀ (m r : ℚ) (y : ℕ) (su i : ℚ), (calculate_sip_rows m r y su i).length = y) ∧
    (∀ (p r : ℚ) (y : ℕ) (i : ℚ), (calculate_lumpsum_rows p r y i).length = y) ∧
    (∀ (iv w r : ℚ) (y : ℕ), (calculate_swp_rows iv w r y).length = y) ∧
    (∀ (sips : List SipConfig) (y : ℕ) (i : ℚ), y ≠ 0 →
      calculate_multiple_sips_checked sips y i =
        some (calculate_multiple_sips_final sips y i,
          calculate_multiple_sips_invested sips y i,
          calculate_multiple_sips_rows sips y)) ∧
    (∀ (ls : List LumpsumConfig) (y : ℕ) (i : ℚ), y ≠ 0 →
      calculate_multiple_lumpsums_checked ls y i =
        some (calculate_multiple_lumpsums_final ls y i,
          calculate_multiple_lumpsums_invested ls i,
          calculate_multiple_lumpsums_rows ls y)) ∧
    (∀ cfg : PhaseConfig, cfg.years ≠ 0 →
      phase_checked cfg = some (phaseNominalFinal cfg, phaseRealFinal cfg,
        phaseInvested cfg, phaseWithdrawn cfg, phaseRealRows cfg) ∧
      (phaseNominalRows cfg).length = cfg.years ∧
      (phaseRealRows cfg).length = cfg.years) ∧
    (∀ cfg : PhaseConfig, cfg.years = 0 → phase_checked cfg = none) := by
  have hreal : ∀ cfg : PhaseConfig, (phaseRealRows cfg).length = cfg.years := by
    intro cfg
    unfold phaseRealRows
    split_ifs with h
    · unfold apply_inflation_adjustment
      split_ifs with h2
      · simp [phaseNominalRows]
      · simp [phaseNominalRows, phaseCumYears]
    · simp [phaseNominalRows]
  refine ⟨?_, ?_, ?_, ?_, ?_, ?_, ?_⟩
  · intro m r y su i; simp [calculate_sip_rows]
  · intro p r y i; simp [calculate_lumpsum_rows]
  · intro iv w r y; simp [calculate_swp_rows]
  · intro sips y i hy
    unfold calculate_multiple_sips_checked
    split_ifs with h
    · simp [calculate_multiple_sips_final, calculate_multiple_sips_invested,
        calculate_multiple_sips_rows, h]
    · rfl
  · intro ls y i hy
    unfold calculate_multiple_lumpsums_checked
    split_ifs with h
    · simp [calculate_multiple_lumpsums_final,
        calculate_multiple_lumpsums_invested,
        calculate_multiple_lumpsums_rows, h]
    · rfl
  · intro cfg hy
    refine ⟨?_, by simp [phaseNominalRows], hreal cfg⟩
    unfold phase_checked
    rw [if_neg hy]
  · intro cfg hy
    unfold phase_checked
    rw [if_pos hy]

/-- Witness for C4's amended statement: the phase with the negative combined
lumpsum of `c4NegCfg` (duration 1) completes with a full result and ledger
rather than raising. -/
theorem C4_amended_witness :
    phase_checked c4NegCfg = some (phaseNominalFinal c4NegCfg,
      phaseRealFinal c4NegCfg, phaseInvested c4NegCfg, phaseWithdrawn c4NegCfg,
      phaseRealRows c4NegCfg) ∧
    (phaseNominalRows c4NegCfg).length = c4NegCfg.years ∧
    (phaseRealRows c4NegCfg).length = c4NegCfg.years :=
  C4_amended.2.2.2.2.2.1 c4NegCfg (by norm_num [c4NegCfg])

/-! ## C6 -/

/-- C6 counterexample: chaining two phases where phase 1 ends at nominal 100
(lumpsum 100 at 0% ROI over 1 year) and phase 2 carries an
additional-investment top-up of 100, the rollover amount actually passed to
phase 2 is 200, not phase 1's nominal final value 100. -/
theorem C6_counterexample :
    chainInputs (0, 0) [c6P1, c6P2] = [(0, 0), (200, 1)] ∧
    phaseNominalFinal (toCfg 0 0 c6P1) = 100 ∧
    (200 : ℚ) ≠ 100 := by
  refine ⟨?_, ?_, by norm_num⟩ <;>
    norm_num [chainInputs, toCfg, c6P1, c6P2, phaseNominalFinal, phaseSwp,
      preSwpNominal, calculate_multiple_sips_final,
      calculate_multiple_lumpsums_final, combinedLumpsumValueYear,
      combinedLumpsumAmount]

/-- C6 amended: in the chain loop, the inputs recorded for phase `i+2` are
exactly phase `i+1`'s nominal final value (computed at its own recorded
inputs) plus phase `i+2`'s additional-investment top-up, together with the
previous cumulative years plus phase `i+1`'s duration; with a zero top-up the
rollover equals the previous nominal final exactly. -/
theorem C6_amended (st : ℚ × ℕ) (ps : List ChainPhase) (i : ℕ)
    (p q : ChainPhase) (a : ℚ × ℕ)
    (hp : ps[i]? = some p) (hq : ps[i + 1]? = some q)
    (ha : (chainInputs st ps)[i]? = some a) :
    (chainInputs st ps)[i + 1]? =
      some (phaseNominalFinal (toCfg a.1 a.2 p) + q.addInv, a.2 + p.years) := by
  induction ps generalizing st i with
  | nil => simp at hp
  | cons p0 rest ih =>
    obtain ⟨ro, cy⟩ := st
    cases i with
    | zero =>
      have hp2 : p0 = p := by simpa using hp
      subst hp2
      simp only [chainInputs] at ha ⊢
      rw [List.getElem?_cons_zero] at ha
      replace ha := Option.some.inj ha
      subst ha
      cases rest with
      | nil => simp at hq
      | cons q0 rest2 =>
        have hq2 : q0 = q := by simpa using hq
        subst hq2
        simp only [chainInputs]
        rw [show (0 + 1 : ℕ) = 1 from rfl, List.getElem?_cons_succ,
          List.getElem?_cons_zero]
    | succ n =>
      simp only [chainInputs] at ha ⊢
      rw [List.getElem?_cons_succ] at ha ⊢
      have hp2 : rest[n]? = some p := by
        rw [List.getElem?_cons_succ] at hp; exact hp
      have hq2 : rest[n + 1]? = some q := by
        rw [List.getElem?_cons_succ] at hq; exact hq
      exact ih _ n hp2 hq2 ha

/-- Witness for C6's amended statement on the concrete two-phase chain. -/
theorem C6_amended_witness :
    (chainInputs (0, 0) [c6P1, c6P2])[0 + 1]? =
      some (phaseNominalFinal (toCfg (0 + c6P1.addInv) 0 c6P1) + c6P2.addInv,
        0 + c6P1.years) :=
  C6_amended (0, 0) [c6P1, c6P2] 0 c6P1 c6P2 (0 + c6P1.addInv, 0) rfl rfl rfl
